import Mathlib

/-!
Shallow embedding of the `twilight-cloudflare-workers` library (`src/lib.rs`):
verification of Discord interaction requests on Cloudflare Workers.

The library's own code is embedded directly: the error taxonomy
(`ProcessRequestErrorType`, `ProcessRequestError` and its methods), the header
names, the `request` pipeline and the `response` builder.  The external crates
it calls (`ed25519_dalek`, `serde_json`/`twilight_model`, the `worker` runtime
types) are modelled by interfaces (`Ed25519`, `InteractionResponseSerde`) that
record only the guarantees those crates document, plus concrete models of
`hex` decoding and of the string primitives (`str::as_bytes`,
`to_ascii_lowercase`), which are pure and standard.

Bytes are natural numbers (each below 256 in practice); fallible calls return
`Option`; the request pipeline returns `Except`.
-/

instance exceptDecEq {ε α : Type} [DecidableEq ε] [DecidableEq α] :
    DecidableEq (Except ε α) := fun a b =>
  match a, b with
  | Except.error e1, Except.error e2 =>
    if h : e1 = e2 then isTrue (congrArg Except.error h)
    else isFalse (fun hc => h (Except.error.inj hc))
  | Except.error _, Except.ok _ => isFalse (fun hc => Except.noConfusion hc)
  | Except.ok _, Except.error _ => isFalse (fun hc => Except.noConfusion hc)
  | Except.ok a1, Except.ok a2 =>
    if h : a1 = a2 then isTrue (congrArg Except.ok h)
    else isFalse (fun hc => h (Except.ok.inj hc))

/-- `str::as_bytes`: the UTF-8 bytes of a Rust string. -/
def strBytes (s : String) : List Nat :=
  (s.data.flatMap String.utf8EncodeChar).map (fun b => b.toNat)

/-- `u8::to_ascii_lowercase` on one character. -/
def asciiLower (c : Char) : Char :=
  if c.toNat ≥ 65 ∧ c.toNat ≤ 90 then Char.ofNat (c.toNat + 32) else c

/-- `str::to_ascii_lowercase`. -/
def lowerString (s : String) : String := String.mk (s.data.map asciiLower)

/-- Value of one hex digit (`0-9`, `a-f`, `A-F`), from the `hex` crate. -/
def hexDigitVal (c : Char) : Option Nat :=
  if 48 ≤ c.toNat ∧ c.toNat ≤ 57 then some (c.toNat - 48)
  else if 97 ≤ c.toNat ∧ c.toNat ≤ 102 then some (c.toNat - 87)
  else if 65 ≤ c.toNat ∧ c.toNat ≤ 70 then some (c.toNat - 55)
  else none

/-- Decode a hex character sequence two digits per byte; `none` on an odd
length or a non-hex character (the `hex` crate's decoder). -/
def hexPairs : List Char → Option (List Nat)
  | [] => some []
  | [_] => none
  | cHi :: cLo :: rest => do
    let hi ← hexDigitVal cHi
    let lo ← hexDigitVal cLo
    let tail ← hexPairs rest
    pure ((hi * 16 + lo) :: tail)

/-- `<[u8; n] as FromHex>::from_hex`: the string must be valid hex that
decodes to exactly `n` bytes. -/
def fromHexExact (n : Nat) (s : String) : Option (List Nat) :=
  match hexPairs s.data with
  | some bytes => if bytes.length = n then some bytes else none
  | none => none

/-- `ed25519_dalek::PUBLIC_KEY_LENGTH`. -/
def PUBLIC_KEY_LENGTH : Nat := 32

/-- Name of a required request header (`InteractionRequestHeaderName`). -/
inductive InteractionRequestHeaderName
  | Signature
  | Timestamp
deriving DecidableEq

/-- `InteractionRequestHeaderName::name`: string name of the header. -/
def InteractionRequestHeaderName.name : InteractionRequestHeaderName → String
  | .Signature => "x-signature-ed25519"
  | .Timestamp => "x-signature-timestamp"

/-- Marker for the boxed `dyn Error` source wrapped into a
`ProcessRequestError`, one per wrapping site in the pipeline. -/
inductive Cause
  | signatureParse
  | hexDecode
  | keyValidation
  | signatureVerification
  | bodyChunking
  | jsonDeserialization
deriving DecidableEq

/-- `ProcessRequestErrorType`: type of error that occurred. -/
inductive ProcessRequestErrorType
  | ChunkingBody
  | DeserializingInteraction (body : List Nat)
  | FromHex
  | InvalidPublicKey
  | InvalidSignature
  | MissingHeader (header : InteractionRequestHeaderName)
  | RouteIncorrect (method : String) (path : String)
deriving DecidableEq

/-- `ProcessRequestError`: an error kind plus an optional boxed source. -/
structure ProcessRequestError where
  kind : ProcessRequestErrorType
  source : Option Cause
deriving DecidableEq

/-- `ProcessRequestError::into_source`: consume the error, returning the
source error if there is any. -/
def ProcessRequestError.into_source (e : ProcessRequestError) : Option Cause :=
  e.source

/-- `ProcessRequestError::into_parts`, embedded exactly as written in the
source: the pair built there is `(self.kind, None)`. -/
def ProcessRequestError.into_parts (e : ProcessRequestError) :
    ProcessRequestErrorType × Option Cause :=
  (e.kind, none)

/-- Rendering of the body bytes in the `DeserializingInteraction` display arm:
the UTF-8 text when `str::from_utf8` succeeds, the debug listing otherwise. -/
def bytesDisplay (body : List Nat) : String :=
  match String.fromUTF8? (ByteArray.mk (body.map (fun b => b.toUInt8)).toArray) with
  | some text => text
  | none => toString body

/-- The `Display` implementation of `ProcessRequestError` (it only inspects
the kind).  `\x27` is the ASCII apostrophe. -/
def ProcessRequestErrorType.message : ProcessRequestErrorType → String
  | .ChunkingBody => "failed to chunk request body"
  | .DeserializingInteraction body =>
    "failed to deserialize request body as interaction: " ++ bytesDisplay body
  | .FromHex => "failed to register public key"
  | .InvalidPublicKey => "public key is invalid"
  | .InvalidSignature => "signature is invalid"
  | .MissingHeader header => "header \x27" ++ header.name ++ "\x27 is invalid"
  | .RouteIncorrect method path =>
    "route of the request (\x27" ++ lowerString method ++ " " ++ path ++
      "\x27) is not \x27post /\x27"

/-- The parts of a `worker::Response` the library produces. -/
structure WResponse where
  status : Nat
  body : String
  headers : List (String × String)
deriving DecidableEq

/-- `ProcessRequestError::response`: `Response::error(self.to_string(), status)`
where the status is 401 for `InvalidSignature` and 500 otherwise. -/
def ProcessRequestError.response (e : ProcessRequestError) : WResponse :=
  let status :=
    match e.kind with
    | ProcessRequestErrorType.InvalidSignature => 401
    | _ => 500
  ⟨status, e.kind.message, []⟩

/-- `worker::Method` (the variants of the HTTP method enum). -/
inductive Method
  | Head
  | Get
  | Post
  | Put
  | Patch
  | Delete
  | Options
  | Connect
  | Trace
deriving DecidableEq

/-- `Method::to_string`. -/
def Method.toString : Method → String
  | .Head => "HEAD"
  | .Get => "GET"
  | .Post => "POST"
  | .Put => "PUT"
  | .Patch => "PATCH"
  | .Delete => "DELETE"
  | .Options => "OPTIONS"
  | .Connect => "CONNECT"
  | .Trace => "TRACE"

/-- The parts of a `worker::Request` the library reads: method, path, the
header map, and the body — `none` models a failing `Request::bytes`. -/
structure WRequest where
  method : Method
  path : String
  headers : List (String × String)
  body : Option (List Nat)

/-- `worker::Headers::get`: lookup by case-insensitive header name (the web
`Headers` API folds ASCII case). -/
def headersGet (hs : List (String × String)) (nm : String) : Option String :=
  (hs.find? (fun p => lowerString p.fst == lowerString nm)).map Prod.snd

/-- Interface of the external `ed25519_dalek` crate as the library uses it:
`Signature::from_str` (`parseSig`), `PublicKey::from_bytes` (`fromBytes`) and
`PublicKey::verify`, together with the signing half of the scheme.  The field
`sign_verify` records the crate's documented guarantee: a signature produced
over a message with a private key verifies over that message under the
matching public key. -/
structure Ed25519 (PubKey PrivKey Sig : Type) where
  parseSig : String → Option Sig
  fromBytes : List Nat → Option PubKey
  verify : PubKey → List Nat → Sig → Bool
  sign : PrivKey → List Nat → Sig
  pubOf : PrivKey → PubKey
  sign_verify : ∀ (sk : PrivKey) (msg : List Nat),
    verify (pubOf sk) msg (sign sk msg) = true

/-- The `request` pipeline of `src/lib.rs`, stage for stage: route check,
timestamp header, signature header, signature parse, public-key hex decode,
key validation, body fetch, signature verification over
`timestamp_bytes ++ body`, and finally JSON deserialization (`deser` models
`serde_json::from_slice` into `twilight_model`'s `Interaction`). -/
def request {PubKey PrivKey Sig I : Type} (E : Ed25519 PubKey PrivKey Sig)
    (deser : List Nat → Option I) (req : WRequest) (public_key : String) :
    Except ProcessRequestError I :=
  if req.method ≠ Method.Post ∨ req.path ≠ "/" then
    Except.error ⟨ProcessRequestErrorType.RouteIncorrect req.method.toString req.path, none⟩
  else
    match headersGet req.headers InteractionRequestHeaderName.Timestamp.name with
    | none =>
      Except.error ⟨ProcessRequestErrorType.MissingHeader InteractionRequestHeaderName.Timestamp, none⟩
    | some timestamp =>
      match headersGet req.headers InteractionRequestHeaderName.Signature.name with
      | none =>
        Except.error ⟨ProcessRequestErrorType.MissingHeader InteractionRequestHeaderName.Signature, none⟩
      | some signature_header =>
        match E.parseSig signature_header with
        | none => Except.error ⟨ProcessRequestErrorType.InvalidSignature, some Cause.signatureParse⟩
        | some signature =>
          match fromHexExact PUBLIC_KEY_LENGTH public_key with
          | none => Except.error ⟨ProcessRequestErrorType.FromHex, some Cause.hexDecode⟩
          | some hex =>
            match E.fromBytes hex with
            | none => Except.error ⟨ProcessRequestErrorType.InvalidPublicKey, some Cause.keyValidation⟩
            | some key =>
              match req.body with
              | none => Except.error ⟨ProcessRequestErrorType.ChunkingBody, some Cause.bodyChunking⟩
              | some body =>
                if E.verify key (strBytes timestamp ++ body) signature = false then
                  Except.error ⟨ProcessRequestErrorType.InvalidSignature, some Cause.signatureVerification⟩
                else
                  match deser body with
                  | none =>
                    Except.error ⟨ProcessRequestErrorType.DeserializingInteraction body, some Cause.jsonDeserialization⟩
                  | some interaction => Except.ok interaction

/-- `process`, the deprecated alias of `request`. -/
def process {PubKey PrivKey Sig I : Type} (E : Ed25519 PubKey PrivKey Sig)
    (deser : List Nat → Option I) (req : WRequest) (public_key : String) :
    Except ProcessRequestError I :=
  request E deser req public_key

/-- Interface of `serde_json` on `twilight_model`'s `InteractionResponse`:
serialization to a JSON string and deserialization back, with serde's
round-trip guarantee for the derived implementations. -/
structure InteractionResponseSerde (IR : Type) where
  toJson : IR → Option String
  ofJson : String → Option IR
  round_trip : ∀ (ir : IR) (s : String), toJson ir = some s → ofJson s = some ir

/-- The `response` builder of `src/lib.rs`: serialize the interaction
response; on failure a fixed 500 error response, on success `Response::ok`
with the JSON body and the `Content-Type: application/json` header set. -/
def response {IR : Type} (S : InteractionResponseSerde IR) (ir : IR) : WResponse :=
  match S.toJson ir with
  | none => ⟨500, "failed to serialize interaction response", []⟩
  | some json => ⟨200, json, [("Content-Type", "application/json")]⟩

/-- A concrete instantiation of the `Ed25519` interface used to evaluate the
pipeline on closed inputs: signatures are byte lists, signing is the identity
on the message, verification compares signature and message. -/
def toyEd : Ed25519 Unit Unit (List Nat) :=
  { parseSig := fun s => some (strBytes s)
    fromBytes := fun bs => if bs.length = 32 then some () else none
    verify := fun _ msg s => s == msg
    sign := fun _ msg => msg
    pubOf := fun _ => ()
    sign_verify := by intro sk msg; simp }

/-- A concrete deserializer for closed evaluations. -/
def toyDeser : List Nat → Option Nat := fun _ => some 7

/-- A 64-character hex public key (32 zero bytes). -/
def pk64 : String := "0000000000000000000000000000000000000000000000000000000000000000"

/-- A well-formed `POST /` request with both verification headers. -/
def toyReq : WRequest :=
  ⟨Method.Post, "/", [("x-signature-timestamp", "t"), ("x-signature-ed25519", "t")], some []⟩

/-- A concrete instantiation of the serde interface for closed evaluations. -/
def toySerde : InteractionResponseSerde Unit :=
  { toJson := fun _ => some "null"
    ofJson := fun _ => some ()
    round_trip := fun ir _ _ => congrArg some (Subsingleton.elim () ir) }

/-- Claim C2: `ProcessRequestError::response` maps the error kind to the HTTP
status purely: `InvalidSignature` yields 401, and every other kind
(`RouteIncorrect`, `MissingHeader`, `FromHex`, `InvalidPublicKey`,
`ChunkingBody`, `DeserializingInteraction`) yields 500. -/
theorem claim_c2_error_status (e : ProcessRequestError) :
    (e.kind = ProcessRequestErrorType.InvalidSignature → e.response.status = 401) ∧
    (e.kind = ProcessRequestErrorType.ChunkingBody → e.response.status = 500) ∧
    (∀ b, e.kind = ProcessRequestErrorType.DeserializingInteraction b → e.response.status = 500) ∧
    (e.kind = ProcessRequestErrorType.FromHex → e.response.status = 500) ∧
    (e.kind = ProcessRequestErrorType.InvalidPublicKey → e.response.status = 500) ∧
    (∀ hd, e.kind = ProcessRequestErrorType.MissingHeader hd → e.response.status = 500) ∧
    (∀ m p, e.kind = ProcessRequestErrorType.RouteIncorrect m p → e.response.status = 500) := by
  obtain ⟨k, s⟩ := e
  cases k <;> simp [ProcessRequestError.response]

theorem claim_c2_error_status_witness :
    (ProcessRequestError.mk ProcessRequestErrorType.InvalidSignature none).response.status = 401 ∧
    (ProcessRequestError.mk ProcessRequestErrorType.FromHex (some Cause.hexDecode)).response.status = 500 :=
  ⟨(claim_c2_error_status ⟨ProcessRequestErrorType.InvalidSignature, none⟩).1 rfl,
   (claim_c2_error_status ⟨ProcessRequestErrorType.FromHex, some Cause.hexDecode⟩).2.2.2.1 rfl⟩

/-- Claim C3: whenever the method is not POST or the path is not exactly "/",
`request` fails with `RouteIncorrect` carrying the observed method and path,
regardless of headers, body, or public key. -/
theorem claim_c3_route_incorrect {PubKey PrivKey Sig I : Type}
    (E : Ed25519 PubKey PrivKey Sig) (deser : List Nat → Option I)
    (req : WRequest) (public_key : String)
    (h : req.method ≠ Method.Post ∨ req.path ≠ "/") :
    request E deser req public_key =
      Except.error ⟨ProcessRequestErrorType.RouteIncorrect req.method.toString req.path, none⟩ := by
  unfold request
  rw [if_pos h]

theorem claim_c3_route_incorrect_witness :
    request toyEd toyDeser ⟨Method.Get, "/x", [("x-signature-timestamp", "t")], some []⟩ pk64 =
      Except.error ⟨ProcessRequestErrorType.RouteIncorrect "GET" "/x", none⟩ :=
  claim_c3_route_incorrect toyEd toyDeser
    ⟨Method.Get, "/x", [("x-signature-timestamp", "t")], some []⟩ pk64 (Or.inl (by decide))

/-- Claim C7: the claim says `into_parts` returns the error kind together with
the stored source, as `into_source` does; the code of `into_parts` builds
`(self.kind, None)`, so the stored source is discarded.  At an error carrying
a source, `into_parts` and `into_source` disagree. -/
theorem claim_c7_into_parts_drops_source :
    ProcessRequestError.into_parts
        ⟨ProcessRequestErrorType.InvalidSignature, some Cause.signatureParse⟩ =
      (ProcessRequestErrorType.InvalidSignature, none) ∧
    ProcessRequestError.into_source
        ⟨ProcessRequestErrorType.InvalidSignature, some Cause.signatureParse⟩ =
      some Cause.signatureParse ∧
    (ProcessRequestError.into_parts
        ⟨ProcessRequestErrorType.InvalidSignature, some Cause.signatureParse⟩).2 ≠
      ProcessRequestError.into_source
        ⟨ProcessRequestErrorType.InvalidSignature, some Cause.signatureParse⟩ := by
  decide

/-- Claim C8: when serialization succeeds, `response` returns status 200 with
the `Content-Type: application/json` header and the JSON body, which
deserializes back to the payload; when serialization fails it returns the
fixed 500 diagnostic response. -/
theorem claim_c8_response_builder {IR : Type} (S : InteractionResponseSerde IR) (ir : IR) :
    (∀ j, S.toJson ir = some j →
      response S ir = ⟨200, j, [("Content-Type", "application/json")]⟩ ∧
      S.ofJson j = some ir) ∧
    (S.toJson ir = none →
      response S ir = ⟨500, "failed to serialize interaction response", []⟩) := by
  constructor
  · intro j hj
    exact ⟨by simp only [response, hj], S.round_trip ir j hj⟩
  · intro hn
    simp only [response, hn]

theorem claim_c8_response_builder_witness :
    response toySerde () = ⟨200, "null", [("Content-Type", "application/json")]⟩ ∧
    toySerde.ofJson "null" = some () :=
  (claim_c8_response_builder toySerde ()).1 "null" rfl

/-- Claim C9: `request` is a pure function of its inputs — two calls whose
method, path, headers, body, and public key agree return the same result. -/
theorem claim_c9_deterministic {PubKey PrivKey Sig I : Type}
    (E : Ed25519 PubKey PrivKey Sig) (deser : List Nat → Option I)
    (r1 r2 : WRequest) (k1 k2 : String)
    (hm : r1.method = r2.method) (hp : r1.path = r2.path)
    (hh : r1.headers = r2.headers) (hb : r1.body = r2.body) (hk : k1 = k2) :
    request E deser r1 k1 = request E deser r2 k2 := by
  have hr : r1 = r2 := by
    obtain ⟨m1, p1, hs1, b1⟩ := r1
    obtain ⟨m2, p2, hs2, b2⟩ := r2
    exact WRequest.mk.injEq .. ▸ ⟨hm, hp, hh, hb⟩
  rw [hr, hk]

theorem claim_c9_deterministic_witness :
    request toyEd toyDeser toyReq pk64 = request toyEd toyDeser toyReq pk64 :=
  claim_c9_deterministic toyEd toyDeser toyReq toyReq pk64 pk64 rfl rfl rfl rfl rfl

/-- Variant of `toyEd` whose key validation rejects every byte string, for
exercising the `InvalidPublicKey` stage on closed inputs. -/
def toyEdNoKey : Ed25519 Unit Unit (List Nat) :=
  { toyEd with fromBytes := fun _ => none }

/-- Claim C4: on a `POST /` request without the `x-signature-timestamp`
header `request` fails with `MissingHeader Timestamp` — whatever the other
headers, in particular when the signature header is missing too — and when
the timestamp header is present but `x-signature-ed25519` is missing it fails
with `MissingHeader Signature`: the two absences are reported individually,
timestamp first. -/
theorem claim_c4_missing_headers {PubKey PrivKey Sig I : Type}
    (E : Ed25519 PubKey PrivKey Sig) (deser : List Nat → Option I)
    (req : WRequest) (public_key : String)
    (hm : req.method = Method.Post) (hp : req.path = "/") :
    (headersGet req.headers "x-signature-timestamp" = none →
      request E deser req public_key =
        Except.error ⟨ProcessRequestErrorType.MissingHeader InteractionRequestHeaderName.Timestamp, none⟩) ∧
    (∀ ts, headersGet req.headers "x-signature-timestamp" = some ts →
      headersGet req.headers "x-signature-ed25519" = none →
      request E deser req public_key =
        Except.error ⟨ProcessRequestErrorType.MissingHeader InteractionRequestHeaderName.Signature, none⟩) := by
  constructor
  · intro hts
    simp only [request, InteractionRequestHeaderName.name, hm, hp, hts]
    simp
  · intro ts hts hsh
    simp only [request, InteractionRequestHeaderName.name, hm, hp, hts, hsh]
    simp

theorem claim_c4_missing_headers_witness :
    request toyEd toyDeser ⟨Method.Post, "/", [], some []⟩ pk64 =
      Except.error ⟨ProcessRequestErrorType.MissingHeader InteractionRequestHeaderName.Timestamp, none⟩ ∧
    request toyEd toyDeser ⟨Method.Post, "/", [("x-signature-timestamp", "t")], some []⟩ pk64 =
      Except.error ⟨ProcessRequestErrorType.MissingHeader InteractionRequestHeaderName.Signature, none⟩ :=
  ⟨(claim_c4_missing_headers toyEd toyDeser ⟨Method.Post, "/", [], some []⟩ pk64 rfl rfl).1 rfl,
   (claim_c4_missing_headers toyEd toyDeser ⟨Method.Post, "/", [("x-signature-timestamp", "t")], some []⟩
      pk64 rfl rfl).2 "t" (by decide) (by decide)⟩

/-- Claim C6: past the earlier stages, a public-key string that does not
hex-decode to exactly 32 bytes gives a `FromHex` error (with the decode error
wrapped), while a string that decodes to 32 bytes failing Ed25519 key
validation gives the distinct `InvalidPublicKey` error (with the validation
error wrapped); the kinds are different. -/
theorem claim_c6_key_errors {PubKey PrivKey Sig I : Type}
    (E : Ed25519 PubKey PrivKey Sig) (deser : List Nat → Option I)
    (req : WRequest) (public_key : String)
    (hm : req.method = Method.Post) (hp : req.path = "/") (ts sh : String)
    (hts : headersGet req.headers "x-signature-timestamp" = some ts)
    (hsh : headersGet req.headers "x-signature-ed25519" = some sh)
    (sig : Sig) (hsig : E.parseSig sh = some sig) :
    (fromHexExact PUBLIC_KEY_LENGTH public_key = none →
      request E deser req public_key =
        Except.error ⟨ProcessRequestErrorType.FromHex, some Cause.hexDecode⟩) ∧
    (∀ kb, fromHexExact PUBLIC_KEY_LENGTH public_key = some kb → E.fromBytes kb = none →
      request E deser req public_key =
        Except.error ⟨ProcessRequestErrorType.InvalidPublicKey, some Cause.keyValidation⟩) ∧
    ProcessRequestErrorType.FromHex ≠ ProcessRequestErrorType.InvalidPublicKey := by
  refine ⟨?_, ?_, by simp⟩
  · intro hhex
    simp only [request, InteractionRequestHeaderName.name, hm, hp, hts, hsh, hsig, hhex]
    simp
  · intro kb hhex hkey
    simp only [request, InteractionRequestHeaderName.name, hm, hp, hts, hsh, hsig, hhex, hkey]
    simp

theorem claim_c6_key_errors_witness :
    request toyEd toyDeser toyReq "zz" =
      Except.error ⟨ProcessRequestErrorType.FromHex, some Cause.hexDecode⟩ ∧
    request toyEdNoKey toyDeser toyReq pk64 =
      Except.error ⟨ProcessRequestErrorType.InvalidPublicKey, some Cause.keyValidation⟩ :=
  ⟨(claim_c6_key_errors toyEd toyDeser toyReq "zz" rfl rfl "t" "t" (by decide) (by decide)
      (strBytes "t") rfl).1 (by decide),
   (claim_c6_key_errors toyEdNoKey toyDeser toyReq pk64 rfl rfl "t" "t" (by decide) (by decide)
      (strBytes "t") rfl).2.1 (List.replicate 32 0) (by decide) rfl⟩

/-- Claim C1: on a `POST /` request carrying both headers, a signature that
parses to the signing of `timestamp_bytes ++ body_bytes` under a keypair
whose public key is supplied decodes and verifies, and `request` returns the
deserialized interaction when the body deserializes, or
`DeserializingInteraction` retaining exactly the raw body bytes when it does
not. -/
theorem claim_c1_round_trip {PubKey PrivKey Sig I : Type}
    (E : Ed25519 PubKey PrivKey Sig) (deser : List Nat → Option I)
    (sk : PrivKey) (req : WRequest) (public_key : String)
    (T : String) (B : List Nat) (sh : String) (kb : List Nat)
    (hm : req.method = Method.Post) (hp : req.path = "/")
    (hts : headersGet req.headers "x-signature-timestamp" = some T)
    (hsh : headersGet req.headers "x-signature-ed25519" = some sh)
    (hbody : req.body = some B)
    (hsig : E.parseSig sh = some (E.sign sk (strBytes T ++ B)))
    (hkb : fromHexExact PUBLIC_KEY_LENGTH public_key = some kb)
    (hkey : E.fromBytes kb = some (E.pubOf sk)) :
    (∀ i, deser B = some i → request E deser req public_key = Except.ok i) ∧
    (deser B = none → request E deser req public_key =
      Except.error ⟨ProcessRequestErrorType.DeserializingInteraction B, some Cause.jsonDeserialization⟩) := by
  have hv := E.sign_verify sk (strBytes T ++ B)
  constructor
  · intro i hi
    simp only [request, InteractionRequestHeaderName.name, hm, hp, hts, hsh, hsig, hkb, hkey,
      hbody, hv, hi]
    simp
  · intro hn
    simp only [request, InteractionRequestHeaderName.name, hm, hp, hts, hsh, hsig, hkb, hkey,
      hbody, hv, hn]
    simp

theorem claim_c1_round_trip_witness :
    request toyEd toyDeser toyReq pk64 = Except.ok 7 :=
  (claim_c1_round_trip toyEd toyDeser () toyReq pk64 "t" [] "t" (List.replicate 32 0)
    rfl rfl (by decide) (by decide) rfl (by decide) (by decide) (by decide)).1 7 rfl

/-- Claim C10: every error `request` produces has a source exactly matching
its kind: `RouteIncorrect` and `MissingHeader` carry no wrapped source, while
`InvalidSignature`, `FromHex`, `InvalidPublicKey`, `ChunkingBody` and
`DeserializingInteraction` always carry one. -/
theorem claim_c10_source_invariant {PubKey PrivKey Sig I : Type}
    (E : Ed25519 PubKey PrivKey Sig) (deser : List Nat → Option I)
    (req : WRequest) (public_key : String) (e : ProcessRequestError)
    (h : request E deser req public_key = Except.error e) :
    ((∃ m p, e.kind = ProcessRequestErrorType.RouteIncorrect m p) ∨
        (∃ hd, e.kind = ProcessRequestErrorType.MissingHeader hd) →
      e.source = none) ∧
    (e.kind = ProcessRequestErrorType.InvalidSignature ∨
        e.kind = ProcessRequestErrorType.FromHex ∨
        e.kind = ProcessRequestErrorType.InvalidPublicKey ∨
        e.kind = ProcessRequestErrorType.ChunkingBody ∨
        (∃ b, e.kind = ProcessRequestErrorType.DeserializingInteraction b) →
      ∃ c, e.source = some c) := by
  unfold request at h
  repeat' split at h
  all_goals first
    | exact Except.noConfusion h
    | (injection h with h; subst h; exact ⟨fun _ => rfl, by simp⟩)
    | (injection h with h; subst h; exact ⟨by simp, fun _ => ⟨_, rfl⟩⟩)

theorem claim_c10_source_invariant_witness :
    (ProcessRequestError.mk (ProcessRequestErrorType.RouteIncorrect "GET" "/") none).source =
      none :=
  (claim_c10_source_invariant toyEd toyDeser ⟨Method.Get, "/", [], none⟩ pk64
      ⟨ProcessRequestErrorType.RouteIncorrect "GET" "/", none⟩ (by decide)).1
    (Or.inl ⟨"GET", "/", rfl⟩)

/-- Claim C5: `request` fails with kind `InvalidSignature` in exactly two
situations — the signature header is present but does not parse as an
Ed25519 signature, or it parses and cryptographic verification of
`timestamp_bytes ++ body_bytes` under the decoded key fails — and in both
the underlying cause is wrapped as the error's source. -/
theorem claim_c5_invalid_signature {PubKey PrivKey Sig I : Type}
    (E : Ed25519 PubKey PrivKey Sig) (deser : List Nat → Option I)
    (req : WRequest) (public_key : String) :
    (∀ e, request E deser req public_key = Except.error e →
      e.kind = ProcessRequestErrorType.InvalidSignature →
      (∃ c, e.source = some c) ∧
      (req.method = Method.Post ∧ req.path = "/" ∧
        ∃ ts sh, headersGet req.headers "x-signature-timestamp" = some ts ∧
          headersGet req.headers "x-signature-ed25519" = some sh ∧
          (E.parseSig sh = none ∨
            ∃ sig kb key body, E.parseSig sh = some sig ∧
              fromHexExact PUBLIC_KEY_LENGTH public_key = some kb ∧
              E.fromBytes kb = some key ∧ req.body = some body ∧
              E.verify key (strBytes ts ++ body) sig = false))) ∧
    ((req.method = Method.Post ∧ req.path = "/" ∧
        ∃ ts sh, headersGet req.headers "x-signature-timestamp" = some ts ∧
          headersGet req.headers "x-signature-ed25519" = some sh ∧
          (E.parseSig sh = none ∨
            ∃ sig kb key body, E.parseSig sh = some sig ∧
              fromHexExact PUBLIC_KEY_LENGTH public_key = some kb ∧
              E.fromBytes kb = some key ∧ req.body = some body ∧
              E.verify key (strBytes ts ++ body) sig = false)) →
      ∃ e, request E deser req public_key = Except.error e ∧
        e.kind = ProcessRequestErrorType.InvalidSignature ∧ ∃ c, e.source = some c) := by
  constructor
  · intro e h hk
    unfold request at h
    split at h
    next hroute =>
      injection h with h
      subst h
      simp at hk
    next hroute =>
      push_neg at hroute
      obtain ⟨hm, hp⟩ := hroute
      split at h
      next hts =>
        injection h with h
        subst h
        simp at hk
      next ts hts =>
        split at h
        next hsh =>
          injection h with h
          subst h
          simp at hk
        next sh hsh =>
          split at h
          next hparse =>
            injection h with h
            subst h
            exact ⟨⟨_, rfl⟩, hm, hp, ts, sh, hts, hsh, Or.inl hparse⟩
          next signature hparse =>
            split at h
            next hhex =>
              injection h with h
              subst h
              simp at hk
            next kb hhex =>
              split at h
              next hkey =>
                injection h with h
                subst h
                simp at hk
              next key hkey =>
                split at h
                next hbody =>
                  injection h with h
                  subst h
                  simp at hk
                next body hbody =>
                  split at h
                  next hverify =>
                    injection h with h
                    subst h
                    exact ⟨⟨_, rfl⟩, hm, hp, ts, sh, hts, hsh,
                      Or.inr ⟨signature, kb, key, body, hparse, hhex, hkey, hbody, hverify⟩⟩
                  next hverify =>
                    split at h
                    next hde =>
                      injection h with h
                      subst h
                      simp at hk
                    next i hde => exact Except.noConfusion h
  · rintro ⟨hm, hp, ts, sh, hts, hsh, hcase⟩
    rcases hcase with hparse | ⟨signature, kb, key, body, hparse, hhex, hkey, hbody, hverify⟩
    · refine ⟨⟨ProcessRequestErrorType.InvalidSignature, some Cause.signatureParse⟩, ?_, rfl, _, rfl⟩
      simp only [request, InteractionRequestHeaderName.name, hm, hp, hts, hsh, hparse]
      simp
    · refine ⟨⟨ProcessRequestErrorType.InvalidSignature, some Cause.signatureVerification⟩, ?_, rfl, _, rfl⟩
      simp only [request, InteractionRequestHeaderName.name, hm, hp, hts, hsh, hparse, hhex,
        hkey, hbody, hverify]
      simp

theorem claim_c5_invalid_signature_witness :
    ∃ e, request toyEd toyDeser
        ⟨Method.Post, "/", [("x-signature-timestamp", "t"), ("x-signature-ed25519", "u")], some []⟩
        pk64 = Except.error e ∧
      e.kind = ProcessRequestErrorType.InvalidSignature ∧ ∃ c, e.source = some c :=
  (claim_c5_invalid_signature toyEd toyDeser
      ⟨Method.Post, "/", [("x-signature-timestamp", "t"), ("x-signature-ed25519", "u")], some []⟩
      pk64).2
    ⟨rfl, rfl, "t", "u", by decide, by decide,
      Or.inr ⟨strBytes "u", List.replicate 32 0, (), [], rfl, by decide, by decide, rfl, by decide⟩⟩
